import Mathlib

/-!
Verification development for the Series Aggregation & Cache-Consistency Engine
of the tobira-ai-service repository (src/services/cumulative-quiz.service.ts).

The TypeScript service is shallowly embedded: the database snapshot seen by a
single request is a `Pool` value, each SQL query becomes a pure function over
that snapshot, promise rejection becomes `Except.error`, and the possibility of
an infrastructure failure (the pg pool rejecting a query) is the `broken` flag
of the pool, which makes every database query fail.
-/

namespace TobiraAI

/-- A row of the `all_events` table, restricted to the columns read by the
cumulative-quiz service: `id`, `title`, `series` (nullable), `state`, the
`order` hint extracted from `metadata->'http://ethz.ch/video/metadata'->>'order'`
(absent when the metadata field is absent), and `created`.  Timestamps are
modelled as naturals, the order hint as a signed integer (SQL `::int`). -/
structure Event where
  id : String
  title : String
  series : Option String
  state : String
  orderHint : Option Int
  created : Nat
deriving Repr, DecidableEq

/-- A row of the `all_series` table (columns read: `id`, `title`). -/
structure SeriesRow where
  id : String
  title : String
deriving Repr, DecidableEq

/-- A question as stored inside `quiz_data` of an `ai_quizzes` row.  Answer and
type fields can arrive under camelCase or snake_case names; absent JSON fields
are `none`.  `timestamp` is numeric when present. -/
structure RawQuestion where
  question : String
  correctAnswer : Option String
  correct_answer : Option String
  questionType : Option String
  type : Option String
  options : Option (List String)
  explanation : Option String
  difficulty : Option String
  timestamp : Option Int
deriving Repr, DecidableEq

/-- A row of the `ai_quizzes` table (columns read: `event_id`, `language`,
`quiz_data`).  `quiz_data.questions` may be absent (`none`), which the service
defaults to `[]` via `quizData.questions || []`. -/
structure AiQuizRow where
  event_id : String
  language : String
  questions : Option (List RawQuestion)
deriving Repr, DecidableEq

/-- The `SeriesEvent` interface of the service: what `getSeriesEventsUpTo`
returns per row (`id`, `title`, 1-based `position`). -/
structure SeriesEvent where
  id : String
  title : String
  position : Nat
deriving Repr, DecidableEq

/-- The intermediate value built by `getOrGenerateIndividualQuiz`. -/
structure IndividualQuiz where
  eventId : String
  questions : List RawQuestion
deriving Repr, DecidableEq

/-- The `videoContext` block attached to every combined question. -/
structure VideoContext where
  eventId : String
  videoTitle : String
  videoNumber : Nat
  timestamp : Option Int
deriving Repr, DecidableEq

/-- The `CumulativeQuizQuestion` interface (fields that are `undefined` in the
JavaScript object are `none`). -/
structure CumulativeQuizQuestion where
  question : String
  questionType : Option String
  options : Option (List String)
  correctAnswer : String
  explanation : Option String
  difficulty : Option String
  videoContext : VideoContext
deriving Repr, DecidableEq

/-- The `CumulativeQuiz` interface / `ai_cumulative_quizzes` row. -/
structure CumulativeQuiz where
  eventId : String
  seriesId : String
  language : String
  model : String
  questions : List CumulativeQuizQuestion
  includedEventIds : List String
  videoCount : Nat
  processingTimeMs : Nat
deriving Repr, DecidableEq

/-- The request-scoped view of the world: the database snapshot (tables read by
the service), the in-memory cache content, and a `broken` flag modelling an
infrastructure failure that makes every `pool.query` call reject. -/
structure Pool where
  events : List Event
  seriesRows : List SeriesRow
  aiQuizzes : List AiQuizRow
  cumulative : List CumulativeQuiz
  memCache : List (String × CumulativeQuiz)
  broken : Bool
deriving Repr

/-- A `pool.query` call: on a broken pool the promise rejects, otherwise it
resolves with the rows computed purely from the snapshot. -/
def Pool.runQuery (p : Pool) {α : Type} (rows : α) : Except String α :=
  match p.broken with
  | true => .error "Infrastructure failure"
  | false => .ok rows

/-- The primary sort key of the ordering CTE:
`CASE WHEN metadata->...->>'order' IS NOT NULL THEN (...)::int ELSE 999999 END`. -/
def hintKey (ev : Event) : Int :=
  ev.orderHint.getD 999999

/-- Strict lexicographic comparison on `(hintKey, created)` — the `ORDER BY`
key of the ordering CTE. -/
def ordLt (a b : Event) : Bool :=
  decide (hintKey a < hintKey b ∨ (hintKey a = hintKey b ∧ a.created < b.created))

/-- Insert an event into an already ordered list, after every element that is
not strictly greater — the stable placement used by `sortEvents`. -/
def insertOrdered (x : Event) : List Event → List Event
  | [] => [x]
  | y :: ys => if ordLt x y then x :: y :: ys else y :: insertOrdered x ys

/-- Stable sort of events by `(hintKey, created)`: elements are taken left to
right and each is inserted after all elements with an equal or smaller key, so
ties keep the underlying enumeration order (the deterministic fallback the
ordering contract requires). -/
def sortEvents (l : List Event) : List Event :=
  l.foldl (fun acc x => insertOrdered x acc) []

/-- The `WHERE series = $1 AND state = 'ready'` filter of the ordering CTE. -/
def readyMembers (events : List Event) (seriesId : String) : List Event :=
  events.filter (fun ev => ev.series == some seriesId && ev.state == "ready")

/-- The `ordered_events` CTE: ready members of the series, sorted by
`(hintKey, created)` and numbered with a 1-based `position` (`ROW_NUMBER()`). -/
def orderedEvents (events : List Event) (seriesId : String) : List SeriesEvent :=
  (sortEvents (readyMembers events seriesId)).enum.map
    (fun p => { id := p.2.id, title := p.2.title, position := p.1 + 1 })

/-- The `target_position` CTE: the positions of the ordered rows whose id
equals the anchor. -/
def targetPositions (events : List Event) (seriesId upToEventId : String) : List Nat :=
  ((orderedEvents events seriesId).filter (fun r => r.id == upToEventId)).map (·.position)

/-- The pure content of the `getSeriesEventsUpTo` query: the cross join
`FROM ordered_events e, target_position t WHERE e.position <= t.position`
ordered by position (each event keeps one copy per matching target row; with
unique event ids this is the plain prefix ending at the anchor). -/
def getSeriesEventsUpToRows (events : List Event) (seriesId upToEventId : String) :
    List SeriesEvent :=
  (orderedEvents events seriesId).flatMap
    (fun r => List.replicate
      ((targetPositions events seriesId upToEventId).countP (fun t => r.position ≤ t)) r)

/-- `getSeriesEventsUpTo(seriesId, upToEventId)`: issues the prefix query
against the pool. -/
def getSeriesEventsUpTo (p : Pool) (seriesId upToEventId : String) :
    Except String (List SeriesEvent) :=
  p.runQuery (getSeriesEventsUpToRows p.events seriesId upToEventId)

/-- `getOrGenerateIndividualQuiz(eventId, language)`: look up the stored quiz
row for `(eventId, language)`; a missing row, like a `quiz_data` without a
`questions` field, yields an empty question list instead of an error. -/
def getOrGenerateIndividualQuiz (p : Pool) (eventId language : String) :
    Except String IndividualQuiz :=
  match p.runQuery
      (p.aiQuizzes.filter (fun r => r.event_id == eventId && r.language == language)) with
  | .error m => .error m
  | .ok rows =>
    match rows.head? with
    | some row => .ok { eventId := eventId, questions := row.questions.getD [] }
    | none => .ok { eventId := eventId, questions := [] }

/-- JavaScript truthiness of an optional numeric value: `undefined` and `0`
are falsy, every other number is truthy. -/
def jsTruthyInt : Option Int → Bool
  | none => false
  | some t => t != 0

/-- The body of the question loop of `combineQuizzes` once the source video row
is at hand: resolve the correct answer under either field naming
(`q.correctAnswer ?? q.correct_answer`); if absent the question is skipped
(`none`), otherwise a combined question is built, with
`timestamp: q.timestamp ? Number(q.timestamp) : undefined`. -/
def toCombined (event : SeriesEvent) (q : RawQuestion) : Option CumulativeQuizQuestion :=
  match q.correctAnswer.or q.correct_answer with
  | none => none
  | some ca => some {
      question := q.question
      questionType := q.questionType.or q.type
      options := q.options
      correctAnswer := ca
      explanation := q.explanation
      difficulty := q.difficulty
      videoContext := {
        eventId := event.id
        videoTitle := event.title
        videoNumber := event.position
        timestamp := if jsTruthyInt q.timestamp then q.timestamp else none } }

/-- One iteration of the inner question loop of `combineQuizzes`: the skip
check runs before `events[index]` is dereferenced, so a skipped question never
faults, while a surviving question with no video row at `index` raises the
TypeError the JavaScript code would raise. -/
def combineStep (events : List SeriesEvent) (index : Nat) (q : RawQuestion) :
    Except String (Option CumulativeQuizQuestion) :=
  match q.correctAnswer.or q.correct_answer with
  | none => .ok none
  | some _ =>
    match events[index]? with
    | none => .error "TypeError: cannot read properties of undefined"
    | some event => .ok (toCombined event q)

/-- The inner `quiz.questions.forEach` loop of `combineQuizzes` for the quiz at
`index`, collecting surviving questions in order. -/
def combineList (events : List SeriesEvent) (index : Nat) :
    List RawQuestion → Except String (List CumulativeQuizQuestion)
  | [] => .ok []
  | q :: qs =>
    match combineStep events index q with
    | .error m => .error m
    | .ok none => combineList events index qs
    | .ok (some c) =>
      match combineList events index qs with
      | .error m => .error m
      | .ok rest => .ok (c :: rest)

/-- The outer `quizzes.forEach((quiz, index) => ...)` loop of `combineQuizzes`. -/
def combineAll (events : List SeriesEvent) :
    Nat → List IndividualQuiz → Except String (List CumulativeQuizQuestion)
  | _, [] => .ok []
  | index, quiz :: rest =>
    match combineList events index quiz.questions with
    | .error m => .error m
    | .ok head =>
      match combineAll events (index + 1) rest with
      | .error m => .error m
      | .ok tail => .ok (head ++ tail)

/-- `combineQuizzes(quizzes, events)`: fold the per-video quizzes, in video
order, into one combined question list. -/
def combineQuizzes (quizzes : List IndividualQuiz) (events : List SeriesEvent) :
    Except String (List CumulativeQuizQuestion) :=
  combineAll events 0 quizzes

/-- The Quiz Combiner contract as the specification words it: video order
first, per-video question order second, questions without a resolvable correct
answer dropped.  Stated independently of the implementation above so the two
can be compared. -/
def combineSpec (quizzes : List IndividualQuiz) (events : List SeriesEvent) :
    List CumulativeQuizQuestion :=
  (quizzes.zip events).flatMap (fun qe => qe.1.questions.filterMap (toCombined qe.2))

/-- Lexicographic comparison of two character-code sequences, the order the
JavaScript default sort comparator induces on strings. -/
def codeUnitsLt : List Nat → List Nat → Bool
  | [], [] => false
  | [], _ :: _ => true
  | _ :: _, [] => false
  | x :: xs, y :: ys => if x < y then true else if y < x then false else codeUnitsLt xs ys

/-- The JavaScript string comparison used by `Array.prototype.sort()`:
lexicographic on the character codes. -/
def jsStrLt (a b : String) : Bool :=
  codeUnitsLt (a.data.map Char.toNat) (b.data.map Char.toNat)

/-- Insertion step of `jsSortStrings`. -/
def insertStr (x : String) : List String → List String
  | [] => [x]
  | y :: ys => if jsStrLt x y then x :: y :: ys else y :: insertStr x ys

/-- The JavaScript `Array.prototype.sort()` on an array of id strings:
ascending lexicographic order on the strings. -/
def jsSortStrings (l : List String) : List String :=
  l.foldl (fun acc x => insertStr x acc) []

/-- `isCacheValid(quiz)`: recompute the member prefix for
`(quiz.seriesId, quiz.eventId)`, sort both id lists and compare
(`JSON.stringify` equality of the two sorted string arrays is equality of the
lists); any error during recomputation is caught and yields `false`. -/
def isCacheValid (p : Pool) (quiz : CumulativeQuiz) : Bool :=
  match getSeriesEventsUpTo p quiz.seriesId quiz.eventId with
  | .error _ => false
  | .ok currentEvents =>
    jsSortStrings (currentEvents.map (·.id)) == jsSortStrings quiz.includedEventIds

/-- The cache key `cumulative_quiz:{eventId}:{language}`. -/
def cacheKey (eventId language : String) : String :=
  "cumulative_quiz:" ++ eventId ++ ":" ++ language

/-- `getCachedQuiz(eventId, language)`: memory cache first, then the
`ai_cumulative_quizzes` table (the re-caching write has no observable effect on
the properties modelled here and is omitted). -/
def getCachedQuiz (p : Pool) (eventId language : String) :
    Except String (Option CumulativeQuiz) :=
  match (p.memCache.find? (fun kv => kv.1 == cacheKey eventId language)).map (·.2) with
  | some v => .ok (some v)
  | none =>
    match p.runQuery
        (p.cumulative.filter (fun q => q.eventId == eventId && q.language == language)) with
    | .error m => .error m
    | .ok rows => .ok rows.head?

/-- `saveCumulativeQuiz(quiz)`: the upsert query; it rejects exactly when the
pool does (the inserted row and the cache write are not observed by any
property modelled here, so the state change is not threaded). -/
def saveCumulativeQuiz (p : Pool) (_quiz : CumulativeQuiz) : Except String Unit :=
  match p.runQuery () with
  | .error m => .error m
  | .ok _ => .ok ()

/-- `process.env.DEFAULT_MODEL || 'gpt-4'` with an unset environment. -/
def defaultModel : String := "gpt-4"

/-- The anchor lookup of `generateCumulativeQuiz`:
`WHERE id = $1 AND series IS NOT NULL AND state = 'ready'`, first row. -/
def generateEventLookup (events : List Event) (eventId : String) : Option Event :=
  (events.filter (fun ev =>
    ev.id == eventId && ev.series.isSome && ev.state == "ready")).head?

/-- Steps 2–6 of `generateCumulativeQuiz` (everything after the cache check):
anchor lookup, member-prefix resolution, per-member quiz fetches, combination,
persistence, and the assembled `CumulativeQuiz` record.  Wall-clock timing is
not modelled (`processingTimeMs = 0`). -/
def generateFresh (p : Pool) (eventId language : String) : Except String CumulativeQuiz :=
  match p.runQuery (generateEventLookup p.events eventId) with
  | .error m => .error m
  | .ok none => .error "Event not found or not part of a series"
  | .ok (some event) =>
    match event.series with
    | none => .error "Event not found or not part of a series"
    | some seriesId =>
      match getSeriesEventsUpTo p seriesId eventId with
      | .error m => .error m
      | .ok seriesEvents =>
        match seriesEvents.isEmpty with
        | true => .error "No events found in series"
        | false =>
          match seriesEvents.mapM (fun e => getOrGenerateIndividualQuiz p e.id language) with
          | .error m => .error m
          | .ok individualQuizzes =>
            match combineQuizzes individualQuizzes seriesEvents with
            | .error m => .error m
            | .ok questions =>
              let quiz : CumulativeQuiz := {
                eventId := eventId
                seriesId := seriesId
                language := language
                model := defaultModel
                questions := questions
                includedEventIds := seriesEvents.map (·.id)
                videoCount := seriesEvents.length
                processingTimeMs := 0 }
              match saveCumulativeQuiz p quiz with
              | .error m => .error m
              | .ok _ => .ok quiz

/-- `generateCumulativeQuiz(eventId, language, forceRegenerate)`: unless
forced, serve a cached quiz that passes the Consistency Guard; otherwise run
the generation path. -/
def generateCumulativeQuiz (p : Pool) (eventId language : String)
    (forceRegenerate : Bool) : Except String CumulativeQuiz :=
  if forceRegenerate then generateFresh p eventId language
  else
    match getCachedQuiz p eventId language with
    | .error m => .error m
    | .ok none => generateFresh p eventId language
    | .ok (some cached) =>
      if isCacheValid p cached then .ok cached
      else generateFresh p eventId language

/-- The diagnostic `details` block of an eligibility result; every field is
optional because different gates fill different subsets. -/
structure EligibilityDetails where
  seriesId : Option String := none
  seriesTitle : Option String := none
  position : Option Nat := none
  totalInSeries : Option Nat := none
  previousVideosWithQuizzes : Option Nat := none
  hasQuiz : Option Bool := none
deriving Repr, DecidableEq

/-- The result shape of `checkEligibility`. -/
structure EligibilityResult where
  eligible : Bool
  reason : String
  details : Option EligibilityDetails := none
deriving Repr, DecidableEq

/-- A row of the step-1 eligibility query:
`SELECT e.id, e.series, e.title, s.title AS series_title FROM all_events e
LEFT JOIN all_series s ON s.id = e.series WHERE e.id = $1 AND e.state = 'ready'`. -/
structure EligEventRow where
  id : String
  series : Option String
  title : String
  series_title : Option String
deriving Repr, DecidableEq

/-- The rows of the step-1 eligibility query over the snapshot (the LEFT JOIN
leaves `series_title` null when the series reference is null or dangling). -/
def eligibilityEventRows (p : Pool) (eventId : String) : List EligEventRow :=
  (p.events.filter (fun ev => ev.id == eventId && ev.state == "ready")).map
    (fun ev => {
      id := ev.id
      series := ev.series
      title := ev.title
      series_title := ev.series.bind
        (fun s => (p.seriesRows.find? (fun sr => sr.id == s)).map (·.title)) })

/-- JavaScript falsiness of a nullable string (`!event.series`): null/undefined
and the empty string are falsy. -/
def jsFalsyOptStr : Option String → Bool
  | none => true
  | some s => s == ""

/-- Gate-1 reason text. -/
def reasonNotFound : String := "Event not found or not ready"

/-- Gate-2 reason text (video outside any series). -/
def reasonNoSeries : String :=
  "This video is not part of a series. Cumulative quizzes require a video series."

/-- Gate-3 reason text (missing own quiz). -/
def reasonNoOwnQuiz : String :=
  "Generate a regular quiz for this video first before creating a cumulative quiz."

/-- Reason text when the anchor cannot be located in the resolved order. -/
def reasonNoPosition : String := "Video position could not be determined in the series"

/-- Gate-4 reason text (first video of the series). -/
def reasonFirstVideo : String :=
  "This is the first video in the series. Cumulative quizzes require at least one previous video with a quiz."

/-- Gate-5 reason text (no predecessor has a quiz). -/
def reasonNoPrevQuiz : String :=
  "No previous videos in this series have quizzes yet. Generate quizzes for earlier videos first."

/-- The success reason text, with the interpolated diagnostics. -/
def eligibleReason (position totalInSeries previousVideosWithQuizzes : Nat) : String :=
  "Cumulative quiz can be generated. This video is #" ++ toString position ++
  " of " ++ toString totalInSeries ++ " in the series, with " ++
  toString previousVideosWithQuizzes ++ " previous video(s) having quizzes."

/-- Number of distinct predecessor ids having a stored quiz for the language:
`SELECT DISTINCT event_id FROM ai_quizzes WHERE event_id = ANY($1) AND language = $2`. -/
def distinctPrevQuizCount (p : Pool) (previousIds : List String) (language : String) : Nat :=
  (((p.aiQuizzes.filter (fun r =>
      previousIds.contains r.event_id && r.language == language)).map
      (·.event_id)).eraseDups).length

/-- The body of `checkEligibility` before its try/catch: the sequential gates,
each returning early with its own reason, and the infrastructure errors left
to propagate. -/
def checkEligibilityBody (p : Pool) (eventId language : String) :
    Except String EligibilityResult :=
  match p.runQuery (eligibilityEventRows p eventId) with
  | .error m => .error m
  | .ok rows =>
    match rows.head? with
    | none => .ok { eligible := false, reason := reasonNotFound }
    | some event =>
      match jsFalsyOptStr event.series with
      | true => .ok { eligible := false, reason := reasonNoSeries }
      | false =>
        match event.series with
        | none => .ok { eligible := false, reason := reasonNoSeries }
        | some seriesId =>
          match p.runQuery (p.aiQuizzes.filter (fun r =>
              r.event_id == eventId && r.language == language)) with
          | .error m => .error m
          | .ok quizRows =>
            match quizRows.isEmpty with
            | true =>
              .ok { eligible := false, reason := reasonNoOwnQuiz,
                    details := some { seriesId := some seriesId,
                                      seriesTitle := event.series_title,
                                      hasQuiz := some false } }
            | false =>
              match p.runQuery (orderedEvents p.events seriesId) with
              | .error m => .error m
              | .ok allSeriesVideos =>
                match allSeriesVideos.findIdx? (fun v => v.id == eventId) with
                | none =>
                  .ok { eligible := false, reason := reasonNoPosition,
                        details := some { seriesId := some seriesId,
                                          seriesTitle := event.series_title,
                                          hasQuiz := some true } }
                | some currentVideoIndex =>
                  let currentPosition := currentVideoIndex + 1
                  let totalInSeries := allSeriesVideos.length
                  let videosBeforeThis := allSeriesVideos.take currentVideoIndex
                  match videosBeforeThis.isEmpty with
                  | true =>
                    .ok { eligible := false, reason := reasonFirstVideo,
                          details := some { seriesId := some seriesId,
                                            seriesTitle := event.series_title,
                                            position := some currentPosition,
                                            totalInSeries := some totalInSeries,
                                            previousVideosWithQuizzes := some 0,
                                            hasQuiz := some true } }
                  | false =>
                    match p.runQuery
                        (distinctPrevQuizCount p (videosBeforeThis.map (·.id)) language) with
                    | .error m => .error m
                    | .ok previousVideosWithQuizzes =>
                      match previousVideosWithQuizzes == 0 with
                      | true =>
                        .ok { eligible := false, reason := reasonNoPrevQuiz,
                              details := some { seriesId := some seriesId,
                                                seriesTitle := event.series_title,
                                                position := some currentPosition,
                                                totalInSeries := some totalInSeries,
                                                previousVideosWithQuizzes := some 0,
                                                hasQuiz := some true } }
                      | false =>
                        .ok { eligible := true,
                              reason := eligibleReason currentPosition totalInSeries
                                previousVideosWithQuizzes,
                              details := some { seriesId := some seriesId,
                                                seriesTitle := event.series_title,
                                                position := some currentPosition,
                                                totalInSeries := some totalInSeries,
                                                previousVideosWithQuizzes :=
                                                  some previousVideosWithQuizzes,
                                                hasQuiz := some true } }

/-- `checkEligibility(eventId, language)`: the body wrapped in its try/catch —
every error, infrastructure errors included, is converted into an ineligible
result embedding the error message. -/
def checkEligibility (p : Pool) (eventId language : String) : EligibilityResult :=
  match checkEligibilityBody p eventId language with
  | .ok r => r
  | .error m =>
    { eligible := false, reason := "Error checking eligibility: " ++ m }

/-- What the caller of the async `checkEligibility` observes: the promise
always resolves (the catch handler is inside the function), so the outward
behaviour is `Except.ok` of the result — it never rejects. -/
def checkEligibilityTop (p : Pool) (eventId language : String) :
    Except String EligibilityResult :=
  .ok (checkEligibility p eventId language)

/-! ### Ordering lemmas for the Series Position Resolver -/

/-- Non-strict counterpart of `ordLt`: `a` may legitimately stand before `b`. -/
def ordLe (a b : Event) : Prop := ordLt b a = false

theorem ordLe_of_ordLt {a b : Event} (h : ordLt a b = true) : ordLe a b := by
  simp only [ordLt, decide_eq_true_eq] at h
  simp only [ordLe, ordLt, decide_eq_false_iff_not]
  omega

theorem ordLe_of_not_ordLt {a b : Event} (h : ordLt b a = false) : ordLe a b := h

theorem ordLe_of_ordLt_of_ordLe {a b c : Event} (h1 : ordLt a b = true) (h2 : ordLe b c) :
    ordLe a c := by
  simp only [ordLt, decide_eq_true_eq] at h1
  simp only [ordLe, ordLt, decide_eq_false_iff_not] at h2 ⊢
  omega

theorem mem_insertOrdered {z x : Event} : ∀ {l : List Event},
    z ∈ insertOrdered x l → z = x ∨ z ∈ l
  | [], h => by simpa [insertOrdered] using h
  | y :: ys, h => by
    by_cases hxy : ordLt x y = true
    · simp only [insertOrdered, if_pos hxy, List.mem_cons] at h
      rcases h with h | h | h
      · exact Or.inl h
      · exact Or.inr (by simp [h])
      · exact Or.inr (by simp [h])
    · simp only [insertOrdered, if_neg hxy, List.mem_cons] at h
      rcases h with h | h
      · exact Or.inr (by simp [h])
      · rcases mem_insertOrdered h with h | h
        · exact Or.inl h
        · exact Or.inr (by simp [h])

theorem pairwise_insertOrdered (x : Event) : ∀ (l : List Event),
    l.Pairwise ordLe → (insertOrdered x l).Pairwise ordLe
  | [], _ => by simp [insertOrdered, ordLe]
  | y :: ys, h => by
    rcases List.pairwise_cons.mp h with ⟨hy, hys⟩
    by_cases hxy : ordLt x y = true
    · simp only [insertOrdered, if_pos hxy]
      refine List.pairwise_cons.mpr ⟨?_, h⟩
      intro z hz
      rcases List.mem_cons.mp hz with hz | hz
      · exact hz ▸ ordLe_of_ordLt hxy
      · exact ordLe_of_ordLt_of_ordLe hxy (hy z hz)
    · simp only [insertOrdered, if_neg hxy]
      refine List.pairwise_cons.mpr ⟨?_, pairwise_insertOrdered x ys hys⟩
      intro z hz
      rcases mem_insertOrdered hz with hz | hz
      · exact hz ▸ ordLe_of_not_ordLt (by simpa using hxy)
      · exact hy z hz

theorem perm_insertOrdered (x : Event) : ∀ (l : List Event),
    (insertOrdered x l).Perm (x :: l)
  | [] => by simp [insertOrdered]
  | y :: ys => by
    by_cases hxy : ordLt x y = true
    · simp [insertOrdered, hxy, List.Perm.refl]
    · simp only [insertOrdered, if_neg hxy]
      exact ((perm_insertOrdered x ys).cons y).trans (List.Perm.swap x y ys)

theorem pairwise_sortFold : ∀ (l acc : List Event), acc.Pairwise ordLe →
    (l.foldl (fun a x => insertOrdered x a) acc).Pairwise ordLe
  | [], acc, h => h
  | x :: xs, acc, h => by
    simpa [List.foldl_cons] using
      pairwise_sortFold xs (insertOrdered x acc) (pairwise_insertOrdered x acc h)

theorem perm_sortFold : ∀ (l acc : List Event),
    (l.foldl (fun a x => insertOrdered x a) acc).Perm (acc ++ l)
  | [], acc => by simp
  | x :: xs, acc => by
    simp only [List.foldl_cons]
    exact ((perm_sortFold xs (insertOrdered x acc)).trans
      (((perm_insertOrdered x acc).append_right xs).trans List.perm_middle.symm))

/-- `sortEvents` really sorts: consecutive elements are non-decreasing in the
`(hintKey, created)` key. -/
theorem pairwise_sortEvents (l : List Event) : (sortEvents l).Pairwise ordLe :=
  pairwise_sortFold l [] (List.Pairwise.nil)

/-- `sortEvents` is a permutation of its input. -/
theorem perm_sortEvents (l : List Event) : (sortEvents l).Perm l := by
  simpa using perm_sortFold l []

/-! ### Concrete scenarios used by the claims -/

/-- A ready event of a series, with the given ordering metadata. -/
def mkEv (id : String) (series : Option String) (hint : Option Int) (created : Nat) : Event :=
  { id := id, title := "T" ++ id, series := series, state := "ready",
    orderHint := hint, created := created }

/-- The specification's ordering example: order hints `[2, 1, none]`, creation
timestamps breaking the tie for the hint-less video. -/
def c1Events : List Event :=
  [mkEv "E2" (some "s") (some 2) 10, mkEv "E1" (some "s") (some 1) 20,
   mkEv "E0" (some "s") none 5]

/-- Counterexample snapshot for the `+infinity` reading of the absent-hint
rule: `A` carries order hint `1000000` (greater than the sentinel `999999`),
`B` carries no hint and a later creation timestamp. -/
def cexC1Events : List Event :=
  [mkEv "A" (some "s") (some 1000000) 1, mkEv "B" (some "s") none 2]

/-! ### C1 — Series Position Resolver ordering -/

/-- C1 (counterexample to the claim as stated): the claim says a video lacking
an order hint sorts after every video that has one (absent hint behaving as
`+infinity`).  In snapshot `cexC1Events`, video `A` has order hint `1000000`
and video `B` has no hint, yet the resolver places `B` before `A`, because an
absent hint is replaced by the finite sentinel `999999`, not by `+infinity`. -/
theorem claim_C1_counterexample :
    cexC1Events.map Event.orderHint = [some 1000000, none]
    ∧ (orderedEvents cexC1Events "s").map SeriesEvent.id = ["B", "A"]
    ∧ ¬ (orderedEvents cexC1Events "s").map SeriesEvent.id = ["A", "B"] := by
  decide

/-- C1 (amended): the resolver orders the ready videos of a series by the
signed integer order hint with an absent hint replaced by the sentinel
`999999` (so a hint-less video sorts after every video whose hint is below
`999999`, but not after hints at or above the sentinel), with creation
timestamp ascending as secondary key: the resolved sequence is sorted under
that key and is a permutation of the ready members, a video with hint below
the sentinel strictly key-precedes every hint-less video, and the videos with
hints `[2, 1, none]` resolve to hint `1` first, hint `2` second, the hint-less
video last. -/
theorem claim_C1_ordering :
    (∀ (events : List Event) (seriesId : String),
       (sortEvents (readyMembers events seriesId)).Pairwise ordLe
       ∧ (sortEvents (readyMembers events seriesId)).Perm (readyMembers events seriesId))
    ∧ (∀ (a b : Event) (h : Int), a.orderHint = some h → h < 999999 →
        b.orderHint = none → ordLt a b = true)
    ∧ (orderedEvents c1Events "s").map SeriesEvent.id = ["E1", "E2", "E0"] := by
  refine ⟨fun events seriesId => ⟨pairwise_sortEvents _, perm_sortEvents _⟩, ?_, by decide⟩
  intro a b h ha hh hb
  simp only [ordLt, hintKey, ha, hb, Option.getD_some, Option.getD_none, decide_eq_true_eq]
  omega

/-- Witness for C1: the amended ordering theorem applied at concrete videos —
hint `1` strictly precedes the hint-less video of the example snapshot. -/
theorem claim_C1_ordering_witness :
    ordLt (mkEv "E1" (some "s") (some 1) 20) (mkEv "E0" (some "s") none 5) = true :=
  claim_C1_ordering.2.1 _ _ 1 rfl (by decide) rfl

/-! ### C2 / C9 — Cache Consistency Guard -/

/-- A cumulative quiz stored for anchor `B` of series `s` over members
`{A, B}`. -/
def quizAB : CumulativeQuiz :=
  { eventId := "B", seriesId := "s", language := "en", model := "gpt-4",
    questions := [], includedEventIds := ["A", "B"], videoCount := 2,
    processingTimeMs := 0 }

/-- Snapshot at generation time: ready videos `A` (created 1) and `B`
(created 3) in series `s`. -/
def c2Pool0 : Pool :=
  { events := [mkEv "A" (some "s") none 1, mkEv "B" (some "s") none 3],
    seriesRows := [], aiQuizzes := [], cumulative := [], memCache := [],
    broken := false }

/-- The same snapshot after a new ready video `C` (created 2) was added,
positioned between `A` and `B`. -/
def c2Pool1 : Pool :=
  { c2Pool0 with events := c2Pool0.events ++ [mkEv "C" (some "s") none 2] }

/-- C2: `isCacheValid` returns true iff the sorted freshly recomputed member
ids equal the sorted stored `includedEventIds`; an error during recomputation
(broken pool) yields false; and on the concrete scenario, the quiz over
`{A, B}` is valid on the generation-time snapshot and invalid once ready video
`C` is inserted between `A` and `B`. -/
theorem claim_C2_guard :
    (∀ (p : Pool) (quiz : CumulativeQuiz), p.broken = false →
       (isCacheValid p quiz = true ↔
         jsSortStrings
           ((getSeriesEventsUpToRows p.events quiz.seriesId quiz.eventId).map SeriesEvent.id)
           = jsSortStrings quiz.includedEventIds))
    ∧ (∀ (p : Pool) (quiz : CumulativeQuiz), p.broken = true →
        isCacheValid p quiz = false)
    ∧ isCacheValid c2Pool0 quizAB = true
    ∧ isCacheValid c2Pool1 quizAB = false := by
  refine ⟨?_, ?_, by decide, by decide⟩
  · intro p quiz hb
    simp [isCacheValid, getSeriesEventsUpTo, Pool.runQuery, hb]
  · intro p quiz hb
    simp [isCacheValid, getSeriesEventsUpTo, Pool.runQuery, hb]

/-- Witness for C2: the guard equivalence applied at the concrete
generation-time snapshot and stored quiz. -/
theorem claim_C2_guard_witness :
    isCacheValid c2Pool0 quizAB = true ↔
      jsSortStrings
        ((getSeriesEventsUpToRows c2Pool0.events quizAB.seriesId quizAB.eventId).map
          SeriesEvent.id)
        = jsSortStrings quizAB.includedEventIds :=
  claim_C2_guard.1 c2Pool0 quizAB rfl

/-- C9: the guard's verdict depends only on the event snapshot, the pool
health, and the stored quiz's series id, anchor id and member set — never on
the content of any stored questions (neither the per-video quiz rows nor the
cumulative quiz's own question list). -/
theorem claim_C9_membership_only :
    ∀ (p1 p2 : Pool) (q1 q2 : CumulativeQuiz),
      p1.events = p2.events → p1.broken = p2.broken →
      q1.seriesId = q2.seriesId → q1.eventId = q2.eventId →
      q1.includedEventIds = q2.includedEventIds →
      isCacheValid p1 q1 = isCacheValid p2 q2 := by
  intro p1 p2 q1 q2 he hb hs hi hm
  simp only [isCacheValid, getSeriesEventsUpTo, Pool.runQuery, he, hb, hs, hi, hm]

/-- An edited combined question, used to vary question content between two
runs of the guard. -/
def c9EditedQuestion : CumulativeQuizQuestion :=
  { question := "edited after generation", questionType := some "true_false",
    options := none, correctAnswer := "true", explanation := none,
    difficulty := some "easy",
    videoContext := { eventId := "A", videoTitle := "TA", videoNumber := 1,
                      timestamp := none } }

/-- Second run of the C9 scenario: same events, but the per-video quiz store
now holds content and the stored cumulative quiz carries an edited question
list. -/
def c9RewrittenRaw : RawQuestion :=
  { question := "rewritten", correctAnswer := some "no", correct_answer := none,
    questionType := none, type := none, options := none, explanation := none,
    difficulty := none, timestamp := none }

/-- The per-video quiz store of the second C9 run, holding changed content. -/
def c9QuizRowB : AiQuizRow :=
  { event_id := "A", language := "en", questions := some [c9RewrittenRaw] }

def c9PoolB : Pool :=
  { c2Pool0 with aiQuizzes := [c9QuizRowB] }

/-- The stored quiz of the second C9 run: identical membership data, different
question content. -/
def c9QuizB : CumulativeQuiz :=
  { quizAB with questions := [c9EditedQuestion] }

/-- Witness for C9: two runs that differ only in question content (store and
stored aggregate) get the same verdict. -/
theorem claim_C9_membership_only_witness :
    isCacheValid c2Pool0 quizAB = isCacheValid c9PoolB c9QuizB :=
  claim_C9_membership_only c2Pool0 c9PoolB quizAB c9QuizB rfl rfl rfl rfl rfl

/-! ### C4 / C10 — Quiz Combiner -/

theorem combineStep_eq (events : List SeriesEvent) (index : Nat) (q : RawQuestion)
    (event : SeriesEvent) (h : events[index]? = some event) :
    combineStep events index q = .ok (toCombined event q) := by
  cases hca : q.correctAnswer.or q.correct_answer with
  | none => simp [combineStep, toCombined, hca]
  | some ca => simp [combineStep, toCombined, hca, h]

theorem combineList_eq (events : List SeriesEvent) (index : Nat) (event : SeriesEvent)
    (h : events[index]? = some event) :
    ∀ qs : List RawQuestion,
      combineList events index qs = .ok (qs.filterMap (toCombined event))
  | [] => rfl
  | q :: qs => by
    simp only [combineList, combineStep_eq events index q event h, List.filterMap_cons]
    cases htc : toCombined event q with
    | none => simp [combineList_eq events index event h qs]
    | some c => simp [combineList_eq events index event h qs]

theorem combineAll_eq :
    ∀ (quizzes : List IndividualQuiz) (events : List SeriesEvent) (index : Nat),
      index + quizzes.length ≤ events.length →
      combineAll events index quizzes =
        .ok ((quizzes.zip (events.drop index)).flatMap
          (fun qe => qe.1.questions.filterMap (toCombined qe.2)))
  | [], events, index, _ => by simp [combineAll]
  | quiz :: rest, events, index, h => by
    have hlt : index < events.length := by
      simp only [List.length_cons] at h
      omega
    have hget : events[index]? = some events[index] := List.getElem?_eq_getElem hlt
    have hdrop := List.drop_eq_getElem_cons hlt
    simp only [combineAll, combineList_eq events index (events[index]) hget,
      combineAll_eq rest events (index + 1) (by simp only [List.length_cons] at h; omega),
      hdrop, List.zip_cons_cons, List.flatMap_cons]

/-- C4: on the aligned inputs the Orchestrator supplies (one per-video quiz per
resolved member, in the same order), `combineQuizzes` succeeds and equals the
flat concatenation, in video order then per-video question order, of the
per-question translations — so dropping a question never fails the whole
combination and never reorders the survivors; and a question is dropped
exactly when its correct answer is absent under both the camelCase and the
snake_case field name. -/
theorem claim_C4_combiner :
    (∀ (quizzes : List IndividualQuiz) (events : List SeriesEvent),
       quizzes.length = events.length →
       combineQuizzes quizzes events = .ok (combineSpec quizzes events))
    ∧ (∀ (event : SeriesEvent) (q : RawQuestion),
        toCombined event q = none ↔ (q.correctAnswer = none ∧ q.correct_answer = none)) := by
  constructor
  · intro quizzes events h
    rw [combineQuizzes, combineAll_eq quizzes events 0 (by omega)]
    simp [combineSpec]
  · intro event q
    cases hca : q.correctAnswer <;> cases hcb : q.correct_answer <;>
      simp [toCombined, Option.or, hca, hcb]

/-- The source video of the combiner scenario. -/
def c4Event : SeriesEvent := { id := "V1", title := "TV1", position := 1 }

/-- A question with a camelCase correct answer. -/
def c4Keep1 : RawQuestion :=
  { question := "K1", correctAnswer := some "a", correct_answer := none,
    questionType := some "multiple_choice", type := none,
    options := some ["a", "b"], explanation := some "e1",
    difficulty := some "easy", timestamp := none }

/-- A question missing the correct answer under both field names. -/
def c4Dropped : RawQuestion :=
  { question := "D", correctAnswer := none, correct_answer := none,
    questionType := some "true_false", type := none, options := none,
    explanation := none, difficulty := some "hard", timestamp := none }

/-- A question with a snake_case correct answer. -/
def c4Keep2 : RawQuestion :=
  { question := "K2", correctAnswer := none, correct_answer := some "b",
    questionType := none, type := some "true_false", options := none,
    explanation := some "e2", difficulty := some "medium", timestamp := none }

/-- The per-video quiz of the combiner scenario: keep, drop, keep. -/
def c4Quiz : IndividualQuiz :=
  { eventId := "V1", questions := [c4Keep1, c4Dropped, c4Keep2] }

/-- Witness for C4: the combiner theorem applied to the concrete scenario — the
question missing both answer fields is absent from the output, the two others
survive in their original relative order, and the combination still succeeds. -/
theorem claim_C4_combiner_witness :
    combineQuizzes [c4Quiz] [c4Event] = .ok (combineSpec [c4Quiz] [c4Event])
    ∧ (combineSpec [c4Quiz] [c4Event]).map CumulativeQuizQuestion.question = ["K1", "K2"] :=
  ⟨claim_C4_combiner.1 [c4Quiz] [c4Event] rfl, by decide⟩

theorem toCombined_timestamp (event : SeriesEvent) (q : RawQuestion)
    (c : CumulativeQuizQuestion) (h : toCombined event q = some c) :
    c.videoContext.timestamp = (if jsTruthyInt q.timestamp then q.timestamp else none) := by
  cases hca : q.correctAnswer.or q.correct_answer with
  | none => simp [toCombined, hca] at h
  | some ca =>
    simp only [toCombined, hca, Option.some.injEq] at h
    subst h
    rfl

/-- The source video of the zero-timestamp scenario. -/
def c10Event : SeriesEvent := { id := "V9", title := "TV9", position := 3 }

/-- A question anchored at the very start of the video: timestamp `0`. -/
def c10Question : RawQuestion :=
  { question := "At the start?", correctAnswer := some "yes", correct_answer := none,
    questionType := some "true_false", type := none, options := none,
    explanation := none, difficulty := some "easy", timestamp := some 0 }

/-- The combined question the combiner produces for `c10Question`: the `0`
timestamp has been dropped. -/
def c10Combined : CumulativeQuizQuestion :=
  { question := "At the start?", questionType := some "true_false", options := none,
    correctAnswer := "yes", explanation := none, difficulty := some "easy",
    videoContext := { eventId := "V9", videoTitle := "TV9", videoNumber := 3,
                      timestamp := none } }

/-- C10: the combiner propagates a question's timestamp into the video context
only when the source value is truthy in the JavaScript sense; in particular
the valid start-of-video offset `0` is falsy, so it is omitted (left
undefined), as the concrete scenario shows. -/
theorem claim_C10_timestamp :
    (∀ (event : SeriesEvent) (q : RawQuestion) (c : CumulativeQuizQuestion),
       toCombined event q = some c →
       c.videoContext.timestamp = (if jsTruthyInt q.timestamp then q.timestamp else none))
    ∧ (∀ (event : SeriesEvent) (q : RawQuestion) (c : CumulativeQuizQuestion),
        toCombined event q = some c → q.timestamp = some 0 →
        c.videoContext.timestamp = none)
    ∧ (∀ (event : SeriesEvent) (q : RawQuestion) (c : CumulativeQuizQuestion) (t : Int),
        toCombined event q = some c → q.timestamp = some t → t ≠ 0 →
        c.videoContext.timestamp = some t)
    ∧ (toCombined c10Event c10Question = some c10Combined
       ∧ c10Question.timestamp = some 0
       ∧ c10Combined.videoContext.timestamp = none) := by
  refine ⟨toCombined_timestamp, ?_, ?_, by decide⟩
  · intro event q c h h0
    rw [toCombined_timestamp event q c h, h0]
    simp [jsTruthyInt]
  · intro event q c t h ht hne
    rw [toCombined_timestamp event q c h, ht]
    simp [jsTruthyInt, hne]

/-- Witness for C10: the zero-timestamp rule applied at the concrete question —
the combined question carries no timestamp. -/
theorem claim_C10_timestamp_witness :
    c10Combined.videoContext.timestamp = none :=
  claim_C10_timestamp.2.1 c10Event c10Question c10Combined rfl rfl

/-! ### C5 / C6 / C8 — Aggregation Orchestrator -/

theorem generateFresh_ok (p : Pool) (eventId language : String) (quiz : CumulativeQuiz)
    (h : generateFresh p eventId language = .ok quiz) :
    p.broken = false ∧
    ∃ event seriesId,
      generateEventLookup p.events eventId = some event ∧
      event.series = some seriesId ∧
      quiz.eventId = eventId ∧ quiz.seriesId = seriesId ∧ quiz.language = language ∧
      quiz.includedEventIds =
        (getSeriesEventsUpToRows p.events seriesId eventId).map SeriesEvent.id ∧
      quiz.videoCount = (getSeriesEventsUpToRows p.events seriesId eventId).length ∧
      getSeriesEventsUpToRows p.events seriesId eventId ≠ [] := by
  cases hb : p.broken with
  | true =>
    simp [generateFresh, Pool.runQuery, hb] at h
  | false =>
    unfold generateFresh getSeriesEventsUpTo saveCumulativeQuiz Pool.runQuery at h
    rw [hb] at h
    dsimp only at h
    refine ⟨rfl, ?_⟩
    cases hlook : generateEventLookup p.events eventId with
    | none =>
      rw [hlook] at h
      try dsimp only at h
      exact absurd h (by simp)
    | some event =>
      rw [hlook] at h
      try dsimp only at h
      cases hser : event.series with
      | none =>
        rw [hser] at h
        try dsimp only at h
        exact absurd h (by simp)
      | some seriesId =>
        rw [hser] at h
        try dsimp only at h
        cases hemp : (getSeriesEventsUpToRows p.events seriesId eventId).isEmpty with
        | true =>
          rw [hemp] at h
          try dsimp only at h
          exact absurd h (by simp)
        | false =>
          rw [hemp] at h
          try dsimp only at h
          cases hmap : (getSeriesEventsUpToRows p.events seriesId eventId).mapM
              (fun e => getOrGenerateIndividualQuiz p e.id language) with
          | error m =>
            rw [hmap] at h
            try dsimp only at h
            exact absurd h (by simp)
          | ok individualQuizzes =>
            rw [hmap] at h
            try dsimp only at h
            cases hcomb : combineQuizzes individualQuizzes
                (getSeriesEventsUpToRows p.events seriesId eventId) with
            | error m =>
              rw [hcomb] at h
              try dsimp only at h
              exact absurd h (by simp)
            | ok questions =>
              rw [hcomb] at h
              try dsimp only at h
              injection h with h2
              subst h2
              refine ⟨event, seriesId, rfl, hser, rfl, rfl, rfl, rfl, rfl, ?_⟩
              intro hnil
              rw [hnil] at hemp
              simp [List.isEmpty] at hemp

theorem getSeriesEventsUpToRows_eq_nil (events : List Event) (seriesId anchor : String)
    (h : anchor ∉ (orderedEvents events seriesId).map SeriesEvent.id) :
    getSeriesEventsUpToRows events seriesId anchor = [] := by
  have hfilter : (orderedEvents events seriesId).filter (fun r => r.id == anchor) = [] := by
    apply List.filter_eq_nil_iff.mpr
    intro r hr
    simp only [beq_iff_eq]
    intro heq
    exact h (List.mem_map.mpr ⟨r, hr, heq⟩)
  simp [getSeriesEventsUpToRows, targetPositions, hfilter]

theorem anchor_mem_getSeriesEventsUpToRows (events : List Event) (seriesId anchor : String)
    (h : getSeriesEventsUpToRows events seriesId anchor ≠ []) :
    anchor ∈ (getSeriesEventsUpToRows events seriesId anchor).map SeriesEvent.id := by
  by_cases hmem : anchor ∈ (orderedEvents events seriesId).map SeriesEvent.id
  · obtain ⟨r0, hr0mem, hr0id⟩ := List.mem_map.mp hmem
    have hr0tar : r0.position ∈ targetPositions events seriesId anchor := by
      apply List.mem_map_of_mem
      exact List.mem_filter.mpr ⟨hr0mem, by simp [hr0id]⟩
    have hcount :
        0 < (targetPositions events seriesId anchor).countP (fun t => r0.position ≤ t) := by
      apply List.countP_pos_iff.mpr
      exact ⟨r0.position, hr0tar, by simp⟩
    have hr0res : r0 ∈ getSeriesEventsUpToRows events seriesId anchor := by
      apply List.mem_flatMap.mpr
      exact ⟨r0, hr0mem, List.mem_replicate.mpr ⟨by omega, rfl⟩⟩
    exact List.mem_map.mpr ⟨r0, hr0res, hr0id⟩
  · exact absurd (getSeriesEventsUpToRows_eq_nil events seriesId anchor hmem) h

/-- C5: a successfully generated cumulative quiz (forced generation, so the
record is freshly produced from the current snapshot) records as
`includedEventIds` exactly the Position Resolver's member prefix for its series
truncated at the anchor, and its `videoCount` equals the length of that list. -/
theorem claim_C5_generate_invariant :
    ∀ (p : Pool) (eventId language : String) (quiz : CumulativeQuiz),
      generateCumulativeQuiz p eventId language true = .ok quiz →
      ∃ event, generateEventLookup p.events eventId = some event ∧
        event.series = some quiz.seriesId ∧
        quiz.includedEventIds =
          (getSeriesEventsUpToRows p.events quiz.seriesId eventId).map SeriesEvent.id ∧
        quiz.videoCount = quiz.includedEventIds.length := by
  intro p eventId language quiz h
  have hfresh : generateFresh p eventId language = .ok quiz := h
  obtain ⟨hb, event, seriesId, hlook, hser, hqe, hqs, hql, hids, hcount, hne⟩ :=
    generateFresh_ok p eventId language quiz hfresh
  subst hqs
  refine ⟨event, hlook, hser, hids, ?_⟩
  rw [hids, hcount, List.length_map]

/-- Snapshot of the degraded-generation scenario: ready videos `V1` (created 1,
no stored quiz) and `V2` (created 2, one stored question) in series `s`. -/
def c8Raw : RawQuestion :=
  { question := "Q?", correctAnswer := some "yes", correct_answer := none,
    questionType := some "true_false", type := none, options := none,
    explanation := some "E", difficulty := some "easy", timestamp := some 7 }

/-- The stored quiz row of `V2` in the degraded scenario. -/
def c8QuizRow : AiQuizRow :=
  { event_id := "V2", language := "en", questions := some [c8Raw] }

/-- The quiz store of the degraded scenario: only `V2` has a quiz. -/
def c8Pool : Pool :=
  { events := [mkEv "V1" (some "s") none 1, mkEv "V2" (some "s") none 2],
    seriesRows := [{ id := "s", title := "Series S" }],
    aiQuizzes := [c8QuizRow],
    cumulative := [], memCache := [], broken := false }

/-- The cumulative quiz `generate` produces for anchor `V2` of the degraded
scenario: `V1` contributes zero questions yet stays a counted member. -/
def c8Combined : CumulativeQuizQuestion :=
  { question := "Q?", questionType := some "true_false", options := none,
    correctAnswer := "yes", explanation := some "E", difficulty := some "easy",
    videoContext := { eventId := "V2", videoTitle := "TV2", videoNumber := 2,
                      timestamp := some 7 } }

/-- The cumulative quiz record of the degraded scenario. -/
def c8Result : CumulativeQuiz :=
  { eventId := "V2", seriesId := "s", language := "en", model := "gpt-4",
    questions := [c8Combined],
    includedEventIds := ["V1", "V2"], videoCount := 2, processingTimeMs := 0 }

/-- Witness for C5: the invariant instantiated on the concrete degraded
scenario, whose forced generation succeeds. -/
theorem claim_C5_generate_invariant_witness :
    ∃ event, generateEventLookup c8Pool.events "V2" = some event ∧
      event.series = some c8Result.seriesId ∧
      c8Result.includedEventIds =
        (getSeriesEventsUpToRows c8Pool.events c8Result.seriesId "V2").map SeriesEvent.id ∧
      c8Result.videoCount = c8Result.includedEventIds.length :=
  claim_C5_generate_invariant c8Pool "V2" "en" c8Result rfl

/-- C6: an anchor absent from the resolver's ordered set yields the empty row
set (never a silently truncated non-empty list), any non-empty resolver result
contains the anchor itself, and a successful generation never carries an empty
or anchor-less member set — the empty case is turned into the NotFound-kind
error before a quiz is produced. -/
theorem claim_C6_not_positioned :
    (∀ (events : List Event) (seriesId anchor : String),
       anchor ∉ (orderedEvents events seriesId).map SeriesEvent.id →
       getSeriesEventsUpToRows events seriesId anchor = [])
    ∧ (∀ (events : List Event) (seriesId anchor : String),
        getSeriesEventsUpToRows events seriesId anchor ≠ [] →
        anchor ∈ (getSeriesEventsUpToRows events seriesId anchor).map SeriesEvent.id)
    ∧ (∀ (p : Pool) (eventId language : String) (quiz : CumulativeQuiz),
        generateCumulativeQuiz p eventId language true = .ok quiz →
        quiz.includedEventIds ≠ [] ∧ eventId ∈ quiz.includedEventIds) := by
  refine ⟨getSeriesEventsUpToRows_eq_nil, anchor_mem_getSeriesEventsUpToRows, ?_⟩
  intro p eventId language quiz h
  have hfresh : generateFresh p eventId language = .ok quiz := h
  obtain ⟨hb, event, seriesId, hlook, hser, hqe, hqs, hql, hids, hcount, hne⟩ :=
    generateFresh_ok p eventId language quiz hfresh
  subst hqs
  constructor
  · rw [hids]
    simpa using hne
  · rw [hids]
    exact anchor_mem_getSeriesEventsUpToRows p.events quiz.seriesId eventId hne

/-- Witness for C6: the resolver really returns the empty row set for an
anchor that is not among the ordered ready members. -/
theorem claim_C6_not_positioned_witness :
    getSeriesEventsUpToRows c1Events "s" "ghost" = [] :=
  claim_C6_not_positioned.1 c1Events "s" "ghost" (by decide)

/-- C8: a member with no stored per-video quiz for the language contributes an
empty question list instead of an error; every resolver member's id appears in
the member set of a successfully generated quiz; and in the concrete scenario
the quiz-less member `V1` is still listed and counted while the generation
succeeds. -/
theorem claim_C8_degraded :
    (∀ (p : Pool) (eventId language : String), p.broken = false →
       p.aiQuizzes.filter (fun r => r.event_id == eventId && r.language == language) = [] →
       getOrGenerateIndividualQuiz p eventId language = .ok { eventId := eventId, questions := [] })
    ∧ (∀ (p : Pool) (eventId language : String) (quiz : CumulativeQuiz) (m : SeriesEvent),
        generateCumulativeQuiz p eventId language true = .ok quiz →
        m ∈ getSeriesEventsUpToRows p.events quiz.seriesId eventId →
        m.id ∈ quiz.includedEventIds)
    ∧ (generateCumulativeQuiz c8Pool "V2" "en" true = .ok c8Result
       ∧ c8Pool.aiQuizzes.filter (fun r => r.event_id == "V1" && r.language == "en") = []
       ∧ c8Result.includedEventIds = ["V1", "V2"]
       ∧ c8Result.videoCount = 2) := by
  refine ⟨?_, ?_, rfl, by decide, rfl, rfl⟩
  · intro p eventId language hb hfilter
    simp [getOrGenerateIndividualQuiz, Pool.runQuery, hb, hfilter]
  · intro p eventId language quiz m h hm
    have hfresh : generateFresh p eventId language = .ok quiz := h
    obtain ⟨hb, event, seriesId, hlook, hser, hqe, hqs, hql, hids, hcount, hne⟩ :=
      generateFresh_ok p eventId language quiz hfresh
    subst hqs
    rw [hids]
    exact List.mem_map_of_mem SeriesEvent.id hm

/-- Witness for C8: the zero-question contribution rule applied at the
concrete quiz-less member. -/
theorem claim_C8_degraded_witness :
    getOrGenerateIndividualQuiz c8Pool "V1" "en" = .ok { eventId := "V1", questions := [] } :=
  claim_C8_degraded.1 c8Pool "V1" "en" rfl (by decide)

/-! ### C3 / C7 — Eligibility Evaluator -/

theorem take_isEmpty_false {α : Type} (l : List α) (i : Nat) (hi : i < l.length)
    (h0 : i ≠ 0) : (l.take i).isEmpty = false := by
  cases l with
  | nil => simp at hi
  | cons a as =>
    cases i with
    | zero => exact absurd rfl h0
    | succ n => simp [List.take]

/-- C3: the eligibility gates run in order and the first failing gate decides
the reason — in particular a ready video outside any series is reported with
the no-series reason regardless of whether it has a quiz; a missing own quiz,
being first in the series, and having no predecessor with a quiz each produce
their own reason with the documented diagnostics; the eligible outcome carries
the 1-based position, the series size and the predecessor-quiz count; and the
gate reasons are pairwise distinct. -/
theorem claim_C3_gates :
    (∀ (p : Pool) (eventId language : String), p.broken = false →
      ((eligibilityEventRows p eventId).head? = none →
         checkEligibility p eventId language =
           { eligible := false, reason := reasonNotFound, details := none })
      ∧ (∀ row, (eligibilityEventRows p eventId).head? = some row →
          jsFalsyOptStr row.series = true →
          checkEligibility p eventId language =
            { eligible := false, reason := reasonNoSeries, details := none })
      ∧ (∀ row seriesId, (eligibilityEventRows p eventId).head? = some row →
          jsFalsyOptStr row.series = false → row.series = some seriesId →
          (p.aiQuizzes.filter
            (fun r => r.event_id == eventId && r.language == language)).isEmpty = true →
          checkEligibility p eventId language =
            { eligible := false, reason := reasonNoOwnQuiz,
              details := some { seriesId := some seriesId,
                                seriesTitle := row.series_title,
                                hasQuiz := some false } })
      ∧ (∀ row seriesId, (eligibilityEventRows p eventId).head? = some row →
          jsFalsyOptStr row.series = false → row.series = some seriesId →
          (p.aiQuizzes.filter
            (fun r => r.event_id == eventId && r.language == language)).isEmpty = false →
          (orderedEvents p.events seriesId).findIdx? (fun v => v.id == eventId) = some 0 →
          checkEligibility p eventId language =
            { eligible := false, reason := reasonFirstVideo,
              details := some { seriesId := some seriesId,
                                seriesTitle := row.series_title,
                                position := some 1,
                                totalInSeries := some (orderedEvents p.events seriesId).length,
                                previousVideosWithQuizzes := some 0,
                                hasQuiz := some true } })
      ∧ (∀ row seriesId idx, (eligibilityEventRows p eventId).head? = some row →
          jsFalsyOptStr row.series = false → row.series = some seriesId →
          (p.aiQuizzes.filter
            (fun r => r.event_id == eventId && r.language == language)).isEmpty = false →
          (orderedEvents p.events seriesId).findIdx? (fun v => v.id == eventId) = some idx →
          idx ≠ 0 →
          distinctPrevQuizCount p
            (((orderedEvents p.events seriesId).take idx).map (fun v => v.id)) language = 0 →
          checkEligibility p eventId language =
            { eligible := false, reason := reasonNoPrevQuiz,
              details := some { seriesId := some seriesId,
                                seriesTitle := row.series_title,
                                position := some (idx + 1),
                                totalInSeries := some (orderedEvents p.events seriesId).length,
                                previousVideosWithQuizzes := some 0,
                                hasQuiz := some true } })
      ∧ (∀ row seriesId idx k, (eligibilityEventRows p eventId).head? = some row →
          jsFalsyOptStr row.series = false → row.series = some seriesId →
          (p.aiQuizzes.filter
            (fun r => r.event_id == eventId && r.language == language)).isEmpty = false →
          (orderedEvents p.events seriesId).findIdx? (fun v => v.id == eventId) = some idx →
          idx ≠ 0 →
          distinctPrevQuizCount p
            (((orderedEvents p.events seriesId).take idx).map (fun v => v.id)) language = k →
          k ≠ 0 →
          checkEligibility p eventId language =
            { eligible := true,
              reason := eligibleReason (idx + 1) (orderedEvents p.events seriesId).length k,
              details := some { seriesId := some seriesId,
                                seriesTitle := row.series_title,
                                position := some (idx + 1),
                                totalInSeries := some (orderedEvents p.events seriesId).length,
                                previousVideosWithQuizzes := some k,
                                hasQuiz := some true } }))
    ∧ [reasonNotFound, reasonNoSeries, reasonNoOwnQuiz, reasonNoPosition,
       reasonFirstVideo, reasonNoPrevQuiz].Pairwise (fun a b => a ≠ b) := by
  refine ⟨?_, by decide⟩
  intro p eventId language hb
  refine ⟨?_, ?_, ?_, ?_, ?_, ?_⟩
  · intro hhead
    unfold checkEligibility checkEligibilityBody Pool.runQuery
    rw [hb]
    dsimp only
    rw [hhead]
  · intro row hhead hfalsy
    unfold checkEligibility checkEligibilityBody Pool.runQuery
    rw [hb]
    dsimp only
    rw [hhead]
    dsimp only
    rw [hfalsy]
  · intro row seriesId hhead hfalsy hser hquiz
    unfold checkEligibility checkEligibilityBody Pool.runQuery
    rw [hb]
    dsimp only
    rw [hhead]
    dsimp only
    rw [hfalsy]
    dsimp only
    rw [hser]
    dsimp only
    rw [hquiz]
  · intro row seriesId hhead hfalsy hser hquiz hidx
    unfold checkEligibility checkEligibilityBody Pool.runQuery
    rw [hb]
    dsimp only
    rw [hhead]
    dsimp only
    rw [hfalsy]
    dsimp only
    rw [hser]
    dsimp only
    rw [hquiz]
    dsimp only
    rw [hidx]
    simp only [List.take_zero, List.isEmpty_nil]
  · intro row seriesId idx hhead hfalsy hser hquiz hidx hidx0 hcnt
    have hlt : idx < (orderedEvents p.events seriesId).length :=
      (List.findIdx?_eq_some_iff_findIdx_eq.mp hidx).1
    have htake := take_isEmpty_false (orderedEvents p.events seriesId) idx hlt hidx0
    unfold checkEligibility checkEligibilityBody Pool.runQuery
    rw [hb]
    dsimp only
    rw [hhead]
    dsimp only
    rw [hfalsy]
    dsimp only
    rw [hser]
    dsimp only
    rw [hquiz]
    dsimp only
    rw [hidx]
    dsimp only
    rw [htake]
    dsimp only
    rw [hcnt]
    rfl
  · intro row seriesId idx k hhead hfalsy hser hquiz hidx hidx0 hcnt hk
    have hlt : idx < (orderedEvents p.events seriesId).length :=
      (List.findIdx?_eq_some_iff_findIdx_eq.mp hidx).1
    have htake := take_isEmpty_false (orderedEvents p.events seriesId) idx hlt hidx0
    have hkbeq : (k == 0) = false := by simpa using hk
    unfold checkEligibility checkEligibilityBody Pool.runQuery
    rw [hb]
    dsimp only
    rw [hhead]
    dsimp only
    rw [hfalsy]
    dsimp only
    rw [hser]
    dsimp only
    rw [hquiz]
    dsimp only
    rw [hidx]
    dsimp only
    rw [htake]
    dsimp only
    rw [hcnt, hkbeq]

/-- A snapshot holding a single ready video `X` outside any series and with no
stored quiz at all. -/
def c3PoolNoSeries : Pool :=
  { events := [mkEv "X" none none 1], seriesRows := [], aiQuizzes := [],
    cumulative := [], memCache := [], broken := false }

/-- Witness for C3: the no-series gate applied to a ready video that also has
no quiz — the no-series reason wins. -/
theorem claim_C3_gates_witness :
    checkEligibility c3PoolNoSeries "X" "en" =
      { eligible := false, reason := reasonNoSeries, details := none } :=
  (claim_C3_gates.1 c3PoolNoSeries "X" "en" rfl).2.1
    { id := "X", series := none, title := "TX", series_title := none } (by decide) rfl

/-- A broken pool: every database query rejects. -/
def c7BrokenPool : Pool :=
  { events := [], seriesRows := [], aiQuizzes := [], cumulative := [],
    memCache := [], broken := true }

/-- C7 (counterexample to the claim as stated): the claim says infrastructure
failures produce an error for the caller.  On a pool whose every query
rejects, `checkEligibility` still resolves normally — the catch-all handler
converts the failure into an ineligible result embedding the message, so no
error reaches the caller. -/
theorem claim_C7_counterexample :
    c7BrokenPool.broken = true
    ∧ checkEligibilityTop c7BrokenPool "V" "en" =
        .ok { eligible := false,
              reason := "Error checking eligibility: Infrastructure failure",
              details := none } :=
  ⟨rfl, rfl⟩

/-- C7 (amended): `checkEligibility` never throws at all — business-logic
ineligibility is returned as a result, and infrastructure failures are also
caught and surfaced as an ineligible result whose reason embeds the error
message, rather than as an error for the caller. -/
theorem claim_C7_never_rejects :
    ∀ (p : Pool) (eventId language : String),
      checkEligibilityTop p eventId language = .ok (checkEligibility p eventId language)
      ∧ (p.broken = true →
          checkEligibility p eventId language =
            { eligible := false,
              reason := "Error checking eligibility: Infrastructure failure",
              details := none }) := by
  intro p eventId language
  refine ⟨rfl, ?_⟩
  intro hb
  unfold checkEligibility checkEligibilityBody Pool.runQuery
  rw [hb]
  rfl

/-- A broken pool that does hold an event row, to instantiate the amended C7
statement. -/
def c7WitnessPool : Pool :=
  { events := [mkEv "W" (some "s") none 1], seriesRows := [], aiQuizzes := [],
    cumulative := [], memCache := [], broken := true }

/-- Witness for C7: the amended theorem applied at a concrete broken pool. -/
theorem claim_C7_never_rejects_witness :
    checkEligibility c7WitnessPool "W" "en" =
      { eligible := false,
        reason := "Error checking eligibility: Infrastructure failure",
        details := none } :=
  (claim_C7_never_rejects c7WitnessPool "W" "en").2 rfl

end TobiraAI
